import Mathlib

set_option maxHeartbeats 1000000

namespace GoogleScripts

/-!
Shallow embedding of `js_dynamic_g_form_current.js` (the "V5" script):
the catalog loader (`getAllCloudProvidersFromTabs`, `loadAllCloudTechnologies`,
`loadTechnologiesFromSheet`), the form builder (`createCompleteFormStructure`
with `setupConditionalNavigation`), and the submission processor
(`onFormSubmitV5`, `saveSubmissionV5`).  Strings are Lean `String`s handled
through their character lists; the external spreadsheet is a list of tabs
with string cells; the ambient clock (`new Date()`) and the respondent email
are explicit inputs; the try/catch around a single provider's sheet read is
an explicit failure oracle.
-/

/-! ### JavaScript string primitives -/

/-- `isLeadOf pat l` is true iff `pat` is an initial segment of `l`.
Building block for JS `includes` and first-occurrence `replace`. -/
def isLeadOf : List Char → List Char → Bool
  | [], _ => true
  | _ :: _, [] => false
  | a :: as, b :: bs => a == b && isLeadOf as bs

/-- `containsSub pat l` is true iff `pat` occurs contiguously in `l`
(JS `String.prototype.includes`). -/
def containsSub (pat : List Char) : List Char → Bool
  | [] => isLeadOf pat []
  | c :: rest => isLeadOf pat (c :: rest) || containsSub pat rest

/-- Replace the first (leftmost) occurrence of `pat` by `repl`, as JS
`String.prototype.replace` does for a string pattern; the input is returned
unchanged when `pat` does not occur.  (Only ever used with a non-empty
pattern, like the source.) -/
def replFirstAux (pat repl : List Char) : List Char → List Char
  | [] => []
  | c :: rest =>
    if isLeadOf pat (c :: rest) then repl ++ (c :: rest).drop pat.length
    else c :: replFirstAux pat repl rest

/-- `pat` cannot occur shifted into itself: no nonempty proper prefix of
`pat` is also a suffix of `pat`.  Instantiated by `decide` for the concrete
label suffix the script uses. -/
def NoSelfOverlap (pat : List Char) : Prop :=
  ∀ k, k < pat.length → 0 < k → pat.take k ≠ pat.drop (pat.length - k)

/-- Whitespace recognized by the embedding of JS `trim`. -/
def isWsChar (c : Char) : Bool :=
  c == ' ' || c == '\t' || c == '\n' || c == '\r'

/-- Strip leading and trailing whitespace from a character list. -/
def trimChars (l : List Char) : List Char :=
  ((l.dropWhile isWsChar).reverse.dropWhile isWsChar).reverse

/-- JS `s.includes(sub)`. -/
def jsIncludes (s sub : String) : Bool := containsSub sub.data s.data

/-- JS `s.toLowerCase()` (ASCII-adequate, which is all the source needs). -/
def jsToLower (s : String) : String := ⟨s.data.map Char.toLower⟩

/-- JS `s.trim()`. -/
def jsTrim (s : String) : String := ⟨trimChars s.data⟩

/-- JS `s.replace(pat, repl)` with a string pattern: first occurrence only. -/
def jsReplaceFirst (s pat repl : String) : String :=
  ⟨replFirstAux pat.data repl.data s.data⟩

/-! ### The spreadsheet side: catalog loading -/

/-- One spreadsheet tab: its name and the rows of its data range.
Cells are modelled as strings; an absent cell is the empty string. -/
structure Sheet where
  name : String
  rows : List (List String)
deriving DecidableEq

/-- The tab-name filter of `getAllCloudProvidersFromTabs`: a tab is a
system/response tab (and is skipped) when its name contains
`"Form Responses"`, `"Responses"`, `"_"`, or, case-insensitively, `"sheet"`. -/
def isSystemSheetName (n : String) : Bool :=
  jsIncludes n "Form Responses" || jsIncludes n "Responses" ||
    jsIncludes n "_" || jsIncludes (jsToLower n) "sheet"

/-- `dataRange.getValues().map(row => row[0]).filter(val => val && String(val).trim() !== '')`:
the non-blank first-column cells of a tab. -/
def firstColumnData (rows : List (List String)) : List String :=
  (rows.map (fun r => r.headD "")).filter
    (fun v => !(v == "") && !(jsTrim v == ""))

/-- `getAllCloudProvidersFromTabs`: names of the tabs that pass the
system-tab filter and have at least one non-blank first-column cell. -/
def getAllCloudProvidersFromTabs (sheets : List Sheet) : List String :=
  sheets.filterMap (fun sh =>
    if isSystemSheetName sh.name then none
    else if 0 < sh.rows.length ∧ 0 < (firstColumnData sh.rows).length then
      some sh.name
    else none)

/-- `loadTechnologiesFromSheet`: the trimmed non-blank first-column cells of
the named tab.  `loadFails` is the failure oracle for the try/catch around
the sheet read: a provider whose read throws yields `[]`, exactly like a
missing or empty tab. -/
def loadTechnologiesFromSheet (sheets : List Sheet) (loadFails : String → Bool)
    (sheetName : String) : List String :=
  if loadFails sheetName then []
  else
    match sheets.find? (fun sh => sh.name == sheetName) with
    | none => []
    | some sh =>
      if sh.rows.length = 0 then []
      else
        ((sh.rows.map (fun r => r.headD "")).filter
          (fun v => !(v == "") && !(jsTrim v == ""))).map jsTrim

/-- `loadAllCloudTechnologies`: providers whose technology list came back
non-empty, in input order, paired with that list.  Providers whose load
failed or was empty are skipped without aborting. -/
def loadAllCloudTechnologies (sheets : List Sheet) (loadFails : String → Bool)
    (cloudProviders : List String) : List (String × List String) :=
  cloudProviders.filterMap (fun provider =>
    let technologies := loadTechnologiesFromSheet sheets loadFails provider
    if 0 < technologies.length then some (provider, technologies) else none)

/-! ### The form builder -/

/-- Navigation target of a single-select choice: a provider's section page
break, or the final submission page. -/
inductive PageRef
  | providerPage (provider : String)
  | finalPage
deriving DecidableEq

/-- One form item, as created by `createCompleteFormStructure`. -/
inductive Item
  | sectionHeader (title : String)
  | textItem (title : String) (required : Bool)
  | pageBreak (title : String)
  | singleSelect (title : String) (required : Bool)
      (choices : List (String × PageRef))
  | checkbox (title : String) (required : Bool) (choices : List String)
  | paragraphText (title : String) (required : Bool)
deriving DecidableEq

/-- Title of a provider's technology checkbox question
(`` `${cloudProvider} Technology Experience` ``). -/
def techTitle (p : String) : String := p ++ " Technology Experience"

/-- Title of a provider's section page break
(`` `${cloudProvider} Technologies` ``). -/
def techPageTitle (p : String) : String := p ++ " Technologies"

/-- The choices `setupConditionalNavigation` puts on the initial
`Choose Your Cloud Provider` question: one choice per provider targeting
that provider's page, then `Go to Submit` targeting the final page. -/
def startChoices (providers : List String) : List (String × PageRef) :=
  providers.map (fun p => (p, PageRef.providerPage p)) ++
    [("Go to Submit", PageRef.finalPage)]

/-- The choices `setupConditionalNavigation` puts on the `Next step`
question of the provider at index `idx`: only providers strictly later in
iteration order (`for (let j = idx + 1; ...)`), then `Go to Submit`. -/
def nextStepChoices (providers : List String) (idx : Nat) :
    List (String × PageRef) :=
  (providers.drop (idx + 1)).map (fun q => (q, PageRef.providerPage q)) ++
    [("Go to Submit", PageRef.finalPage)]

/-- The items `createCloudTechnologySections` emits, with the `Next step`
choices that `setupConditionalNavigation` later attaches: for each provider
(at running index `idx`) a page break, the technology checkbox, and the
`Next step` single-select. -/
def sectionItems (providers : List String) :
    Nat → List (String × List String) → List Item
  | _, [] => []
  | idx, (p, techs) :: rest =>
    Item.pageBreak (techPageTitle p) ::
    Item.checkbox (techTitle p) false techs ::
    Item.singleSelect "Next step" true (nextStepChoices providers idx) ::
    sectionItems providers (idx + 1) rest

/-- `createCompleteFormStructure` applied to `allCloudData`, with the
navigation edges attached: welcome section (header plus two required text
questions), the `Cloud Provider Selection` page break and its single-select,
one section per provider, and the final page with the optional comments
question. -/
def buildFormItems (catalog : List (String × List String)) : List Item :=
  let providers := catalog.map Prod.fst
  Item.sectionHeader "" ::
  Item.textItem "Full Name of a Padawan" true ::
  Item.textItem "Project Name" true ::
  Item.pageBreak "Cloud Provider Selection" ::
  Item.singleSelect "Choose Your Cloud Provider" true (startChoices providers) ::
  (sectionItems providers 0 catalog ++
    [Item.pageBreak "Feedback Complete",
     Item.paragraphText "Additional Comments (Optional)" false])

/-- The choice lists of all `Next step` questions of a built form,
in form order (one per provider section). -/
def nextStepChoiceLists (items : List Item) : List (List (String × PageRef)) :=
  items.filterMap (fun it =>
    match it with
    | Item.singleSelect t _ cs => if t = "Next step" then some cs else none
    | _ => none)

/-- The choice lists of all `Choose Your Cloud Provider` questions of a
built form (the build emits exactly one). -/
def providerSelectChoiceLists (items : List Item) :
    List (List (String × PageRef)) :=
  items.filterMap (fun it =>
    match it with
    | Item.singleSelect t _ cs =>
      if t = "Choose Your Cloud Provider" then some cs else none
    | _ => none)

/-- Titles of the page-break items of a built form, in form order. -/
def pageBreakTitles (items : List Item) : List String :=
  items.filterMap (fun it =>
    match it with
    | Item.pageBreak t => some t
    | _ => none)

/-- Number of pages a form with these items renders: the page before the
first page break, plus one page per page-break item. -/
def formPageCount (items : List Item) : Nat :=
  (items.filter (fun it =>
    match it with
    | Item.pageBreak _ => true
    | _ => false)).length + 1

/-- Result of `initializeFormV5`: the structured `{success, error}` value. -/
inductive InitResult
  | failure (error : String)
  | success (cloudProviders : List String)
      (cloudData : List (String × List String)) (items : List Item)
deriving DecidableEq

/-- `initializeFormV5`: read the provider tabs; if none qualify, fail with
the `No valid cloud provider tabs found in spreadsheet` error; otherwise
load each provider's technologies (failed loads are skipped) and build the
complete form structure from whatever survived. -/
def initializeFormV5 (sheets : List Sheet) (loadFails : String → Bool) :
    InitResult :=
  let cloudProviders := getAllCloudProvidersFromTabs sheets
  if cloudProviders.length = 0 then
    InitResult.failure "No valid cloud provider tabs found in spreadsheet"
  else
    let allCloudData := loadAllCloudTechnologies sheets loadFails cloudProviders
    InitResult.success cloudProviders allCloudData (buildFormItems allCloudData)

/-! ### The submission processor -/

/-- A JS answer value as `getResponse()` returns it: a string (text or
single-select answers) or an array of strings (checkbox answers). -/
inductive JsVal
  | str (s : String)
  | arr (l : List String)
deriving DecidableEq

/-- JS truthiness of an answer: the empty string is falsy, every other
string is truthy, and an array is always truthy. -/
def JsVal.truthy : JsVal → Bool
  | .str s => !(s == "")
  | .arr _ => true

/-- JS `String(answer)`: an array stringifies to its comma-joined elements. -/
def JsVal.toJsString : JsVal → String
  | .str s => s
  | .arr l => String.intercalate "," l

/-- JS `answer || ''`. -/
def jsOrEmpty (a : JsVal) : JsVal := if a.truthy then a else JsVal.str ""

/-- JS `answer !== s` for a string `s`: an array is never strictly equal
to a string. -/
def JsVal.strictNe (a : JsVal) (s : String) : Bool :=
  match a with
  | .str t => !(t == s)
  | .arr _ => true

/-- JS object property write `m[k] = v`: overwrite in place if the key
exists, else append (insertion order preserved, string keys). -/
def assocSet (m : List (String × List String)) (k : String)
    (v : List String) : List (String × List String) :=
  match m with
  | [] => [(k, v)]
  | (k', v') :: rest =>
    if k' = k then (k, v) :: rest else (k', v') :: assocSet rest k v

/-- JS object property read `m[k]` (as an `Option`; `m[k] || []` is
`(assocGet m k).getD []`). -/
def assocGet (m : List (String × List String)) (k : String) :
    Option (List String) :=
  match m with
  | [] => none
  | (k', v') :: rest => if k' = k then some v' else assocGet rest k

/-- The `submissionData` accumulator of `onFormSubmitV5`. -/
structure SubmissionData where
  timestamp : Nat
  name : JsVal
  projectName : JsVal
  selectedCloudProvider : List String
  technologies : List (String × List String)
  comments : JsVal
  email : String
deriving DecidableEq

/-- The accumulator as initialized at the top of `onFormSubmitV5`
(`new Date()` is the `now` input, the respondent email the `email` input). -/
def initSubmissionData (now : Nat) (email : String) : SubmissionData :=
  { timestamp := now
    name := JsVal.str ""
    projectName := JsVal.str ""
    selectedCloudProvider := []
    technologies := []
    comments := JsVal.str ""
    email := email }

/-- The provider name the processor decodes from a technology-question
title: `questionTitle.replace(' Technology Experience', '').trim()`. -/
def decodeTechTitle (t : String) : String :=
  jsTrim (jsReplaceFirst t " Technology Experience" "")

/-- The body of the `itemResponses.forEach` classification loop of
`onFormSubmitV5`, for one `(question title, answer)` pair. -/
def processItemResponse (d : SubmissionData) (pair : String × JsVal) :
    SubmissionData :=
  let t := pair.1
  let answer := pair.2
  if t = "Full Name of a Padawan" then { d with name := jsOrEmpty answer }
  else if t = "Project Name" then { d with projectName := jsOrEmpty answer }
  else if t = "Choose Your Cloud Provider" then
    if answer.truthy then
      { d with selectedCloudProvider :=
          d.selectedCloudProvider ++ [answer.toJsString] }
    else d
  else if t = "Next step" then
    if answer.truthy && answer.strictNe "Go to Submit" then
      { d with selectedCloudProvider :=
          d.selectedCloudProvider ++ [answer.toJsString] }
    else d
  else if jsIncludes t "Technology Experience" then
    let answerList : List String :=
      match answer with
      | JsVal.arr l => l
      | JsVal.str _ => []
    { d with technologies :=
        assocSet d.technologies (decodeTechTitle t) answerList }
  else if jsIncludes t "Additional Comments" then
    { d with comments := jsOrEmpty answer }
  else d

/-- `[...new Set(l)]`: deduplicate, keeping the first occurrence of each
element and the order of first occurrences. -/
def jsSetDedup (l : List String) : List String :=
  l.foldl (fun acc x => if x ∈ acc then acc else acc ++ [x]) []

/-- One row appended to the `V5_Responses` sheet. -/
structure OutputRecord where
  timestamp : Nat
  name : JsVal
  projectName : JsVal
  cloud : String
  techCount : Nat
  techJoined : String
  comments : JsVal
  email : String
deriving DecidableEq

/-- `saveSubmissionV5`: with no captured cloud, one fallback row with empty
cloud and technology fields; otherwise one row per captured cloud with that
cloud's recorded technology list (empty if none was recorded). -/
def saveSubmissionV5 (d : SubmissionData) : List OutputRecord :=
  if d.selectedCloudProvider = [] then
    [{ timestamp := d.timestamp, name := d.name, projectName := d.projectName,
       cloud := "", techCount := 0, techJoined := "",
       comments := d.comments, email := d.email }]
  else
    d.selectedCloudProvider.map (fun cloud =>
      let techList := (assocGet d.technologies cloud).getD []
      { timestamp := d.timestamp, name := d.name, projectName := d.projectName,
        cloud := cloud, techCount := techList.length,
        techJoined := String.intercalate ", " techList,
        comments := d.comments, email := d.email })

/-- `onFormSubmitV5`: classify every answered question, deduplicate the
captured cloud list keeping first-seen order, and emit the output rows.
`now` is the clock value `new Date()` reads at this invocation and `email`
the respondent email of the response. -/
def onFormSubmitV5 (now : Nat) (email : String)
    (pairs : List (String × JsVal)) : List OutputRecord :=
  let d0 := initSubmissionData now email
  let d1 := pairs.foldl processItemResponse d0
  let d2 := { d1 with selectedCloudProvider := jsSetDedup d1.selectedCloudProvider }
  saveSubmissionV5 d2

/-- The accumulator after the classification loop, at reference clock `0`
and empty email (both of which the loop never touches). -/
def processedData (pairs : List (String × JsVal)) : SubmissionData :=
  pairs.foldl processItemResponse (initSubmissionData 0 "")

/-- The providers-visited list a response produces, before deduplication:
every truthy `Choose Your Cloud Provider` answer and every truthy
`Next step` answer other than `Go to Submit`, in answer order. -/
def visitedProviders (pairs : List (String × JsVal)) : List String :=
  (processedData pairs).selectedCloudProvider

/-- The accumulator of `onFormSubmitV5` after the dedup step, at reference
clock `0` and empty email. -/
def dedupedData (pairs : List (String × JsVal)) : SubmissionData :=
  { processedData pairs with
      selectedCloudProvider := jsSetDedup (visitedProviders pairs) }

/-- Forget the timestamp field of a row (for comparing runs of the
processor made at different clock instants). -/
def eraseTimestamp (r : OutputRecord) : OutputRecord :=
  { r with timestamp := 0 }

/-- Keep the first occurrence of each element, dropping every later
duplicate: the order-theoretic statement of first-seen-order
deduplication, written independently of the `Set`-accumulator loop. -/
def firstSeen : List String → List String
  | [] => []
  | x :: xs => x :: (firstSeen xs).filter (fun y => !(y == x))

/-- The log lines `onFormSubmitV5` (and the `saveSubmissionV5` it calls)
emit for one processed submission.  The classification `forEach` body
contains no logging call on any branch — in particular nothing is logged
for a title that matches no pattern — so question titles never reach the
log; only answer-derived values do, in the `Submission processed:` line. -/
def onFormSubmitLogs (pairs : List (String × JsVal)) : List String :=
  let d := processedData pairs
  ["=== PROCESSING FORM SUBMISSION V5 ===",
   "Submission processed: " ++ d.name.toJsString ++ " " ++
     d.projectName.toJsString ++ " " ++
     String.intercalate "," d.selectedCloudProvider,
   "Submission saved to V5_Responses sheet"]

/-! ### Lemmas about the string primitives -/

theorem isLeadOf_iff {p l : List Char} : isLeadOf p l = true ↔ ∃ t, l = p ++ t := by
  induction p generalizing l with
  | nil => simp [isLeadOf]
  | cons a as ih =>
    cases l with
    | nil => simp [isLeadOf]
    | cons b bs =>
      simp only [isLeadOf, Bool.and_eq_true, beq_iff_eq, ih, List.cons_append,
        List.cons.injEq]
      constructor
      · rintro ⟨rfl, t, rfl⟩; exact ⟨t, rfl, rfl⟩
      · rintro ⟨t, rfl, rfl⟩; exact ⟨rfl, t, rfl⟩

theorem isLeadOf_append_self (p t : List Char) : isLeadOf p (p ++ t) = true :=
  isLeadOf_iff.mpr ⟨t, rfl⟩

/-- If `pat` occurs at the very front of `x ++ pat` and `pat` has no
self-overlap, the occurrence must lie entirely inside `x`. -/
theorem isLeadOf_of_isLeadOf_append {pat x : List Char}
    (h : isLeadOf pat (x ++ pat) = true) (hx : x ≠ [])
    (hov : NoSelfOverlap pat) : isLeadOf pat x = true := by
  obtain ⟨t, ht⟩ := isLeadOf_iff.mp h
  rcases le_or_lt pat.length x.length with hle | hlt
  · -- the front occurrence fits inside `x`
    have h1 : (x ++ pat).take pat.length = x.take pat.length :=
      List.take_append_of_le_length hle
    have h2 : (x ++ pat).take pat.length = pat := by
      rw [ht]; exact List.take_left pat t
    have hx2 : x = pat ++ x.drop pat.length := by
      conv_lhs => rw [← List.take_append_drop pat.length x]
      rw [← h1, h2]
    exact isLeadOf_iff.mpr ⟨x.drop pat.length, hx2⟩
  · -- would force a self-overlap of `pat`
    exfalso
    have hxp : x = pat.take x.length := by
      have h1 : (x ++ pat).take x.length = x := List.take_left x pat
      have h2 : (pat ++ t).take x.length = pat.take x.length :=
        List.take_append_of_le_length (Nat.le_of_lt hlt)
      rw [ht] at h1
      rw [h2] at h1
      exact h1.symm
    have hpat : pat = x ++ pat.drop x.length := by
      conv_lhs => rw [← List.take_append_drop x.length pat]
      rw [← hxp]
    set d := pat.drop x.length with hd
    have hlen_d : d.length = pat.length - x.length := by
      simp [hd]
    have hxd : x ++ d = d ++ t := by
      have : x ++ (x ++ d) = x ++ (d ++ t) := by
        rw [← hpat, ht, hpat, List.append_assoc]
      exact List.append_cancel_left this
    have htake : pat.take d.length = d := by
      have h1 : (x ++ d).take d.length = (d ++ t).take d.length := by rw [hxd]
      rw [List.take_left d t] at h1
      rw [hpat]
      exact h1
    have hxlen : 0 < x.length := List.length_pos.mpr hx
    have hklt : d.length < pat.length := by
      rw [hlen_d]; omega
    have hkpos : 0 < d.length := by
      rw [hlen_d]; omega
    have hdrop : pat.drop (pat.length - d.length) = d := by
      have : pat.length - d.length = x.length := by rw [hlen_d]; omega
      rw [this, ← hd]
    exact hov d.length hklt hkpos (htake.trans hdrop.symm)

theorem containsSub_cons (pat : List Char) (c : Char) (rest : List Char) :
    containsSub pat (c :: rest) =
      (isLeadOf pat (c :: rest) || containsSub pat rest) := rfl

/-- A pattern occurring in `y` occurs in `x ++ y`. -/
theorem containsSub_append_right (pat x y : List Char)
    (h : containsSub pat y = true) : containsSub pat (x ++ y) = true := by
  induction x with
  | nil => simpa using h
  | cons c cs ih =>
    rw [List.cons_append, containsSub_cons, ih, Bool.or_true]

/-- Removing the first occurrence of `pat` from `P ++ pat` gives back `P`
whenever `pat` does not occur in `P` and has no self-overlap. -/
theorem replFirstAux_append_pat {pat : List Char} (hne : pat ≠ [])
    (hov : NoSelfOverlap pat) :
    ∀ P : List Char, containsSub pat P = false →
      replFirstAux pat [] (P ++ pat) = P := by
  intro P
  induction P with
  | nil =>
    intro _
    cases pat with
    | nil => exact absurd rfl hne
    | cons a as =>
      have hlead : isLeadOf (a :: as) (a :: as) = true := by
        simpa using isLeadOf_append_self (a :: as) []
      simp [replFirstAux, hlead, List.drop_length]
  | cons c P' ih =>
    intro h
    have h' := h
    rw [containsSub_cons, Bool.or_eq_false_iff] at h'
    obtain ⟨h1, h2⟩ := h'
    have hlead : isLeadOf pat ((c :: P') ++ pat) = false := by
      cases hl : isLeadOf pat ((c :: P') ++ pat) with
      | false => rfl
      | true =>
        have := isLeadOf_of_isLeadOf_append hl (List.cons_ne_nil c P') hov
        rw [this] at h1
        exact absurd h1 (by simp)
    rw [List.cons_append] at hlead ⊢
    rw [replFirstAux, if_neg (by simp [hlead]), ih h2]

/-! ### C8: label round-trip between builder and processor -/

/-- C8 (amended): for every trimmed provider name `P` that does not itself
contain the substring `" Technology Experience"`, decoding the build-time
question title `P ++ " Technology Experience"` with the processor's rule
(drop the first occurrence of `" Technology Experience"`, then trim) yields
exactly `P`; and such a title is always classified as a technology question
by the processor's `includes("Technology Experience")` test.  The original
claim, with no proviso on `P`, fails: JS `replace` removes the *first*
occurrence of the pattern, which for a provider name containing the pattern
lies inside the name (see `c8_counterexample`). -/
theorem c8_label_round_trip (p : String)
    (htrim : jsTrim p = p)
    (hfree : jsIncludes p " Technology Experience" = false) :
    decodeTechTitle (techTitle p) = p ∧
      jsIncludes (techTitle p) "Technology Experience" = true := by
  constructor
  · have hne : (" Technology Experience").data ≠ [] := by decide
    have hov : NoSelfOverlap (" Technology Experience").data := by
      unfold NoSelfOverlap
      decide
    have hmain := replFirstAux_append_pat hne hov p.data hfree
    have hrepl : (jsReplaceFirst (techTitle p) " Technology Experience" "").data
        = p.data := by
      show replFirstAux (" Technology Experience").data ("" : String).data
          (techTitle p).data = p.data
      have h0 : ("" : String).data = [] := rfl
      have h1 : (techTitle p).data = p.data ++ (" Technology Experience").data := by
        simp [techTitle]
      rw [h0, h1]
      exact hmain
    show jsTrim (jsReplaceFirst (techTitle p) " Technology Experience" "") = p
    have h2 : jsTrim (jsReplaceFirst (techTitle p) " Technology Experience" "")
        = jsTrim p := by
      unfold jsTrim
      rw [hrepl]
    rw [h2, htrim]
  · show containsSub ("Technology Experience").data (techTitle p).data = true
    have hbase : containsSub ("Technology Experience").data
        (" Technology Experience").data = true := by decide
    have h1 : (techTitle p).data = p.data ++ (" Technology Experience").data := by
      simp [techTitle]
    rw [h1]
    exact containsSub_append_right _ _ _ hbase

/-- C8 witness: the round-trip at the ordinary provider name `AWS`. -/
theorem c8_label_round_trip_witness :
    jsTrim "AWS" = "AWS" ∧
      jsIncludes "AWS" " Technology Experience" = false ∧
      (decodeTechTitle (techTitle "AWS") = "AWS" ∧
        jsIncludes (techTitle "AWS") "Technology Experience" = true) :=
  ⟨by decide, by decide, c8_label_round_trip "AWS" (by decide) (by decide)⟩

/-- C8 counterexample: `"X Technology ExperienceY"` is trimmed and is a
name the catalog loader accepts (shown on a one-tab spreadsheet), yet the
processor decodes the title built from it to `"XY Technology Experience"`,
not back to the provider name — JS `replace` removes the first occurrence
of `" Technology Experience"`, which here lies inside the provider name. -/
theorem c8_counterexample :
    jsTrim "X Technology ExperienceY" = "X Technology ExperienceY" ∧
      getAllCloudProvidersFromTabs
          [⟨"X Technology ExperienceY", [["EC2"]]⟩]
        = ["X Technology ExperienceY"] ∧
      decodeTechTitle (techTitle "X Technology ExperienceY")
        = "XY Technology Experience" ∧
      decodeTechTitle (techTitle "X Technology ExperienceY")
        ≠ "X Technology ExperienceY" := by decide

/-! ### C10: catalog/sink separation -/

/-- C10: a tab whose name contains `"Responses"`, `"Form Responses"`, an
underscore, or (case-insensitively) `"sheet"` is never included in the
provider catalog, whatever the rest of the spreadsheet looks like. -/
theorem c10_sink_tab_never_a_provider (sheets : List Sheet) (name : String)
    (h : jsIncludes name "Responses" = true ∨
      jsIncludes name "Form Responses" = true ∨
      jsIncludes name "_" = true ∨
      jsIncludes (jsToLower name) "sheet" = true) :
    name ∉ getAllCloudProvidersFromTabs sheets := by
  intro hmem
  unfold getAllCloudProvidersFromTabs at hmem
  rw [List.mem_filterMap] at hmem
  obtain ⟨sh, _, hsh⟩ := hmem
  by_cases hsys : isSystemSheetName sh.name = true
  · rw [if_pos hsys] at hsh
    exact Option.noConfusion hsh
  · rw [if_neg hsys] at hsh
    have hname : sh.name = name := by
      by_cases hdata : 0 < sh.rows.length ∧ 0 < (firstColumnData sh.rows).length
      · rw [if_pos hdata] at hsh
        exact Option.some.inj hsh
      · rw [if_neg hdata] at hsh
        exact Option.noConfusion hsh
    have : isSystemSheetName name = true := by
      rcases h with h | h | h | h <;> simp [isSystemSheetName, h]
    rw [hname] at hsys
    exact hsys this

/-- C10 witness: the processor's own sink tab `V5_Responses`, even when it
holds data, is not picked up as a provider on a rebuild. -/
theorem c10_sink_tab_never_a_provider_witness :
    jsIncludes "V5_Responses" "Responses" = true ∧
      "V5_Responses" ∉ getAllCloudProvidersFromTabs
        [⟨"V5_Responses", [["x"]]⟩, ⟨"AWS", [["EC2"]]⟩] :=
  ⟨by decide,
    c10_sink_tab_never_a_provider _ "V5_Responses" (Or.inl (by decide))⟩

/-! ### C2: the skip choice on the initial provider-select question -/

/-- C2 (code evaluation at the failing input): a respondent who answers the
initial `Choose Your Cloud Provider` question with the skip choice
`Go to Submit` and nothing provider-specific produces one output record
whose provider field is the string `"Go to Submit"`, not the empty string
the claim requires — the `Choose Your Cloud Provider` branch of
`onFormSubmitV5` pushes every truthy answer into the visited list without
excluding `Go to Submit` (only the `Next step` branch excludes it), so the
empty-provider fallback row is never reached. -/
theorem c2_skip_choice_recorded_as_provider :
    onFormSubmitV5 0 ""
        [("Full Name of a Padawan", JsVal.str "Jo"),
         ("Project Name", JsVal.str "P"),
         ("Choose Your Cloud Provider", JsVal.str "Go to Submit")]
      = [{ timestamp := 0, name := JsVal.str "Jo", projectName := JsVal.str "P",
           cloud := "Go to Submit", techCount := 0, techJoined := "",
           comments := JsVal.str "", email := "" }] ∧
      ("Go to Submit" : String) ≠ "" := by decide

/-! ### Clock and email threading through the processor -/

theorem processItemResponse_ts_email (d : SubmissionData)
    (pair : String × JsVal) (n : Nat) (e : String) :
    processItemResponse { d with timestamp := n, email := e } pair
      = { processItemResponse d pair with timestamp := n, email := e } := by
  cases d
  unfold processItemResponse
  dsimp only
  split_ifs <;> rfl

theorem foldl_processItemResponse_ts_email (pairs : List (String × JsVal))
    (d : SubmissionData) (n : Nat) (e : String) :
    pairs.foldl processItemResponse { d with timestamp := n, email := e }
      = { pairs.foldl processItemResponse d with timestamp := n, email := e } := by
  induction pairs generalizing d with
  | nil => rfl
  | cons p rest ih =>
    simp only [List.foldl_cons]
    rw [processItemResponse_ts_email, ih]

/-- `onFormSubmitV5` in terms of the clock-independent accumulator: the
classification loop never reads or writes the timestamp or the email. -/
theorem onFormSubmitV5_eq (now : Nat) (email : String)
    (pairs : List (String × JsVal)) :
    onFormSubmitV5 now email pairs =
      saveSubmissionV5 { dedupedData pairs with timestamp := now, email := email } := by
  unfold onFormSubmitV5 dedupedData processedData visitedProviders
  dsimp only
  rw [show initSubmissionData now email
      = { initSubmissionData 0 "" with timestamp := now, email := email } from rfl,
    foldl_processItemResponse_ts_email]
  rfl

theorem saveSubmissionV5_ts_email (d : SubmissionData) (n : Nat) (e : String) :
    saveSubmissionV5 { d with timestamp := n, email := e }
      = (saveSubmissionV5 d).map
          (fun r => { r with timestamp := n, email := e }) := by
  cases d
  unfold saveSubmissionV5
  dsimp only
  split_ifs with h
  · rfl
  · rw [List.map_map]
    rfl

/-! ### C7: determinism of processing, modulo the clock -/

/-- C7 (amended): two runs of the processor on the same response (same
answer list, same respondent email) yield output lists that agree on every
field except the timestamp, which each run takes from the ambient clock
(`new Date()`) at processing time.  Runs at the same clock instant are
fully identical; runs at different instants differ exactly in the
timestamp (see `c7_counterexample`), so the original claim — equality
including the timestamp across two successive calls — does not hold. -/
theorem c7_deterministic_modulo_timestamp (pairs : List (String × JsVal))
    (email : String) (n1 n2 : Nat) :
    (onFormSubmitV5 n1 email pairs).map eraseTimestamp
      = (onFormSubmitV5 n2 email pairs).map eraseTimestamp := by
  have key : ∀ n : Nat,
      (onFormSubmitV5 n email pairs).map eraseTimestamp
        = (saveSubmissionV5 (dedupedData pairs)).map
            (fun r => { r with timestamp := 0, email := email }) := by
    intro n
    rw [onFormSubmitV5_eq, saveSubmissionV5_ts_email, List.map_map]
    rfl
  rw [key n1, key n2]

/-- C7 counterexample: the same (empty) response processed at clock
instants `0` and `1` yields structurally different record lists — the
timestamps differ, because `onFormSubmitV5` stamps rows with
`new Date()` at processing time, not with anything from the response. -/
theorem c7_counterexample :
    onFormSubmitV5 0 "" [] ≠ onFormSubmitV5 1 "" [] ∧
      (onFormSubmitV5 0 "" []).map (fun r => r.timestamp) = [0] ∧
      (onFormSubmitV5 1 "" []).map (fun r => r.timestamp) = [1] := by decide

/-! ### C4: a response with no visited providers is never dropped -/

/-- C4: whenever the classification loop records no provider at all (the
visited-providers list is empty), processing still emits exactly one
output record, with empty provider field, item count `0`, and empty item
list — the fallback branch of `saveSubmissionV5`. -/
theorem c4_empty_visited_one_fallback_record (now : Nat) (email : String)
    (pairs : List (String × JsVal)) (h : visitedProviders pairs = []) :
    ∃ r : OutputRecord, onFormSubmitV5 now email pairs = [r]
      ∧ r.cloud = "" ∧ r.techCount = 0 ∧ r.techJoined = "" := by
  rw [onFormSubmitV5_eq]
  unfold dedupedData
  rw [h]
  exact ⟨_, rfl, rfl, rfl, rfl⟩

/-- C4 witness: a response answering only the name question. -/
theorem c4_empty_visited_witness :
    visitedProviders [("Full Name of a Padawan", JsVal.str "Jo")] = [] ∧
      ∃ r : OutputRecord,
        onFormSubmitV5 5 "a@b" [("Full Name of a Padawan", JsVal.str "Jo")] = [r]
          ∧ r.cloud = "" ∧ r.techCount = 0 ∧ r.techJoined = "" :=
  ⟨by decide, c4_empty_visited_one_fallback_record 5 "a@b" _ (by decide)⟩

/-! ### C9: unmatched question titles -/

theorem processItemResponse_unmatched (d : SubmissionData) (t : String)
    (a : JsVal)
    (h1 : t ≠ "Full Name of a Padawan") (h2 : t ≠ "Project Name")
    (h3 : t ≠ "Choose Your Cloud Provider") (h4 : t ≠ "Next step")
    (h5 : jsIncludes t "Technology Experience" = false)
    (h6 : jsIncludes t "Additional Comments" = false) :
    processItemResponse d (t, a) = d := by
  unfold processItemResponse
  dsimp only
  rw [if_neg h1, if_neg h2, if_neg h3, if_neg h4,
    if_neg (by simp [h5]), if_neg (by simp [h6])]

/-- C9 (amended): a `(title, answer)` pair whose title matches none of the
recognized patterns leaves the processing result completely unchanged —
inserting it anywhere in the response changes neither the emitted records
nor the log output.  In particular the unmatched title is *not* logged:
the classification loop has no logging call on any branch, so the
"logged for visibility" part of the original claim fails
(see `c9_counterexample`). -/
theorem c9_unmatched_title_ignored (now : Nat) (email : String)
    (pre post : List (String × JsVal)) (t : String) (a : JsVal)
    (h1 : t ≠ "Full Name of a Padawan") (h2 : t ≠ "Project Name")
    (h3 : t ≠ "Choose Your Cloud Provider") (h4 : t ≠ "Next step")
    (h5 : jsIncludes t "Technology Experience" = false)
    (h6 : jsIncludes t "Additional Comments" = false) :
    onFormSubmitV5 now email (pre ++ (t, a) :: post)
        = onFormSubmitV5 now email (pre ++ post)
      ∧ onFormSubmitLogs (pre ++ (t, a) :: post)
          = onFormSubmitLogs (pre ++ post) := by
  have hd : ∀ d : SubmissionData,
      (pre ++ (t, a) :: post).foldl processItemResponse d
        = (pre ++ post).foldl processItemResponse d := by
    intro d
    rw [List.foldl_append, List.foldl_append, List.foldl_cons,
      processItemResponse_unmatched _ t a h1 h2 h3 h4 h5 h6]
  constructor
  · unfold onFormSubmitV5
    dsimp only
    rw [hd]
  · unfold onFormSubmitLogs processedData
    dsimp only
    rw [hd]

/-- C9 witness: inserting the unmatched pair `("Mystery Question", "1")`
after an answered name question changes nothing. -/
theorem c9_unmatched_title_ignored_witness :
    onFormSubmitV5 0 ""
        ([("Full Name of a Padawan", JsVal.str "Jo")] ++
          ("Mystery Question", JsVal.str "1") :: [])
      = onFormSubmitV5 0 "" ([("Full Name of a Padawan", JsVal.str "Jo")] ++ [])
    ∧ onFormSubmitLogs
        ([("Full Name of a Padawan", JsVal.str "Jo")] ++
          ("Mystery Question", JsVal.str "1") :: [])
      = onFormSubmitLogs ([("Full Name of a Padawan", JsVal.str "Jo")] ++ []) :=
  c9_unmatched_title_ignored 0 "" _ _ "Mystery Question" (JsVal.str "1")
    (by decide) (by decide) (by decide) (by decide) (by decide) (by decide)

/-- C9 counterexample (to the "is logged" part of the claim): a response
containing only the unmatched pair `("Mystery Question", "1")` is processed
exactly like an empty response, and no emitted log line mentions the
unmatched title — the source's classification loop logs nothing. -/
theorem c9_counterexample :
    onFormSubmitV5 0 "" [("Mystery Question", JsVal.str "1")]
        = onFormSubmitV5 0 "" []
      ∧ (onFormSubmitLogs [("Mystery Question", JsVal.str "1")]).all
          (fun line => !(jsIncludes line "Mystery Question")) = true := by decide

/-! ### C5: first-seen-order deduplication -/

theorem firstSeen_filter (p : String → Bool) (l : List String) :
    firstSeen (l.filter p) = (firstSeen l).filter p := by
  induction l with
  | nil => rfl
  | cons x xs ih =>
    by_cases hp : p x = true
    · rw [List.filter_cons_of_pos hp]
      show x :: (firstSeen (xs.filter p)).filter (fun y => !(y == x)) = _
      rw [ih]
      show _ = (x :: (firstSeen xs).filter (fun y => !(y == x))).filter p
      rw [List.filter_cons_of_pos hp, List.filter_filter, List.filter_filter]
      exact congrArg _ (List.filter_congr fun a _ => Bool.and_comm _ _)
    · rw [List.filter_cons_of_neg hp, ih]
      show _ = (x :: (firstSeen xs).filter (fun y => !(y == x))).filter p
      rw [List.filter_cons_of_neg hp, List.filter_filter]
      apply List.filter_congr
      intro a _
      by_cases hax : a = x
      · subst hax
        have hpx : p a = false := by
          cases h : p a with
          | false => rfl
          | true => exact absurd h hp
        simp [hpx]
      · have : (a == x) = false := beq_eq_false_iff_ne.mpr hax
        simp [this]

theorem mem_firstSeen {y : String} {l : List String} :
    y ∈ firstSeen l ↔ y ∈ l := by
  induction l with
  | nil => simp [firstSeen]
  | cons x xs ih =>
    simp only [firstSeen, List.mem_cons, List.mem_filter, ih,
      Bool.not_eq_true', beq_eq_false_iff_ne, ne_eq]
    constructor
    · rintro (rfl | ⟨h, _⟩)
      · exact Or.inl rfl
      · exact Or.inr h
    · rintro (rfl | h)
      · exact Or.inl rfl
      · by_cases hyx : y = x
        · exact Or.inl hyx
        · exact Or.inr ⟨h, hyx⟩

theorem nodup_firstSeen (l : List String) : (firstSeen l).Nodup := by
  induction l with
  | nil => simp [firstSeen]
  | cons x xs ih =>
    rw [firstSeen, List.nodup_cons]
    refine ⟨?_, ih.filter _⟩
    intro hmem
    rw [List.mem_filter] at hmem
    simp at hmem

/-- The `Set`-accumulator loop of `jsSetDedup`, run from an arbitrary
accumulator, appends exactly the first occurrences of the not-yet-seen
elements. -/
theorem jsSetDedup_go (l : List String) :
    ∀ acc : List String,
      l.foldl (fun acc x => if x ∈ acc then acc else acc ++ [x]) acc
        = acc ++ firstSeen (l.filter (fun y => !(decide (y ∈ acc)))) := by
  induction l with
  | nil => intro acc; simp [firstSeen]
  | cons x xs ih =>
    intro acc
    simp only [List.foldl_cons]
    by_cases hx : x ∈ acc
    · rw [if_pos hx, ih acc, List.filter_cons_of_neg (by simp [hx])]
    · rw [if_neg hx, ih (acc ++ [x]), List.filter_cons_of_pos (by simp [hx])]
      rw [List.append_assoc]
      congr 1
      rw [List.singleton_append]
      show _ = firstSeen (x :: xs.filter (fun y => !(decide (y ∈ acc))))
      rw [firstSeen, ← firstSeen_filter, List.filter_filter]
      congr 1
      congr 1
      apply List.filter_congr
      intro a _
      by_cases hax : a = x
      · subst hax; simp
      · by_cases ha : a ∈ acc <;> simp [hax, ha]

theorem jsSetDedup_eq_firstSeen (l : List String) :
    jsSetDedup l = firstSeen l := by
  unfold jsSetDedup
  rw [jsSetDedup_go l [], List.nil_append]
  congr 1
  apply List.filter_eq_self.mpr
  intro a _
  simp

theorem mem_jsSetDedup {y : String} {l : List String} :
    y ∈ jsSetDedup l ↔ y ∈ l := by
  rw [jsSetDedup_eq_firstSeen]
  exact mem_firstSeen

theorem jsSetDedup_nodup (l : List String) : (jsSetDedup l).Nodup := by
  rw [jsSetDedup_eq_firstSeen]
  exact nodup_firstSeen l

/-- C5: if a response records a provider name at least twice across the
provider-select and next-step questions, processing emits exactly one
output record for that provider, and the emitted records list the visited
providers in first-seen order (each provider at the position of its first
occurrence in the answer trail). -/
theorem c5_duplicate_provider_single_record (now : Nat) (email : String)
    (pairs : List (String × JsVal)) (p : String)
    (hdup : 2 ≤ (visitedProviders pairs).count p) :
    ((onFormSubmitV5 now email pairs).filter
        (fun r => r.cloud == p)).length = 1
      ∧ (onFormSubmitV5 now email pairs).map (fun r => r.cloud)
          = firstSeen (visitedProviders pairs) := by
  have hmem : p ∈ visitedProviders pairs := List.count_pos_iff.mp (by omega)
  have hmem' : p ∈ jsSetDedup (visitedProviders pairs) := mem_jsSetDedup.mpr hmem
  have hne : jsSetDedup (visitedProviders pairs) ≠ [] := List.ne_nil_of_mem hmem'
  rw [onFormSubmitV5_eq]
  unfold dedupedData saveSubmissionV5
  dsimp only
  rw [if_neg hne]
  constructor
  · rw [List.filter_map, List.length_map]
    show ((jsSetDedup (visitedProviders pairs)).filter
      (fun c => c == p)).length = 1
    rw [← List.countP_eq_length_filter]
    exact List.count_eq_one_of_mem (jsSetDedup_nodup _) hmem'
  · rw [List.map_map]
    show List.map (fun c : String => c) (jsSetDedup (visitedProviders pairs)) = _
    rw [List.map_id']
    exact jsSetDedup_eq_firstSeen _

/-- C5 witness: the provider `AWS` recorded both on the provider-select
question and on a next-step question. -/
theorem c5_duplicate_provider_single_record_witness :
    2 ≤ (visitedProviders
        [("Choose Your Cloud Provider", JsVal.str "AWS"),
         ("Next step", JsVal.str "AWS")]).count "AWS" ∧
      ((onFormSubmitV5 3 "e"
          [("Choose Your Cloud Provider", JsVal.str "AWS"),
           ("Next step", JsVal.str "AWS")]).filter
          (fun r => r.cloud == "AWS")).length = 1 ∧
      (onFormSubmitV5 3 "e"
          [("Choose Your Cloud Provider", JsVal.str "AWS"),
           ("Next step", JsVal.str "AWS")]).map (fun r => r.cloud)
        = firstSeen (visitedProviders
            [("Choose Your Cloud Provider", JsVal.str "AWS"),
             ("Next step", JsVal.str "AWS")]) :=
  ⟨by decide,
    (c5_duplicate_provider_single_record 3 "e" _ "AWS" (by decide)).1,
    (c5_duplicate_provider_single_record 3 "e" _ "AWS" (by decide)).2⟩

/-! ### Build-structure lemmas -/

theorem nextStepChoiceLists_sectionItems (providers : List String) :
    ∀ (cat : List (String × List String)) (k : Nat),
      nextStepChoiceLists (sectionItems providers k cat)
        = (List.range cat.length).map
            (fun j => nextStepChoices providers (k + j)) := by
  intro cat
  induction cat with
  | nil => intro k; rfl
  | cons e rest ih =>
    intro k
    obtain ⟨p, techs⟩ := e
    have hstep : nextStepChoiceLists (sectionItems providers k ((p, techs) :: rest))
        = nextStepChoices providers k ::
            nextStepChoiceLists (sectionItems providers (k + 1) rest) := by
      simp [sectionItems, nextStepChoiceLists, List.filterMap_cons]
    rw [hstep, ih (k + 1), List.length_cons, List.range_succ_eq_map,
      List.map_cons, List.map_map]
    congr 1
    apply List.map_congr_left
    intro a _
    show nextStepChoices providers (k + 1 + a)
      = nextStepChoices providers (k + (a + 1))
    congr 1
    omega

theorem nextStepChoiceLists_buildFormItems (catalog : List (String × List String)) :
    nextStepChoiceLists (buildFormItems catalog)
      = (List.range catalog.length).map
          (fun j => nextStepChoices (catalog.map Prod.fst) j) := by
  have h : nextStepChoiceLists (buildFormItems catalog)
      = nextStepChoiceLists (sectionItems (catalog.map Prod.fst) 0 catalog) := by
    simp [buildFormItems, nextStepChoiceLists, List.filterMap_cons,
      List.filterMap_append]
  rw [h, nextStepChoiceLists_sectionItems]
  apply List.map_congr_left
  intro a _
  rw [Nat.zero_add]

theorem providerSelectChoiceLists_sectionItems (providers : List String) :
    ∀ (cat : List (String × List String)) (k : Nat),
      providerSelectChoiceLists (sectionItems providers k cat) = [] := by
  intro cat
  induction cat with
  | nil => intro k; rfl
  | cons e rest ih =>
    intro k
    obtain ⟨p, techs⟩ := e
    have := ih (k + 1)
    unfold providerSelectChoiceLists at this ⊢
    simp [sectionItems, List.filterMap_cons, this]

theorem providerSelectChoiceLists_buildFormItems
    (catalog : List (String × List String)) :
    providerSelectChoiceLists (buildFormItems catalog)
      = [startChoices (catalog.map Prod.fst)] := by
  have h := providerSelectChoiceLists_sectionItems (catalog.map Prod.fst) catalog 0
  unfold providerSelectChoiceLists at h
  simp [buildFormItems, providerSelectChoiceLists, List.filterMap_append, h]

theorem pageBreakTitles_sectionItems (providers : List String) :
    ∀ (cat : List (String × List String)) (k : Nat),
      pageBreakTitles (sectionItems providers k cat)
        = cat.map (fun e => techPageTitle e.1) := by
  intro cat
  induction cat with
  | nil => intro k; rfl
  | cons e rest ih =>
    intro k
    obtain ⟨p, techs⟩ := e
    have := ih (k + 1)
    unfold pageBreakTitles at this ⊢
    simp [sectionItems, List.filterMap_cons, this]

theorem pageBreakTitles_buildFormItems (catalog : List (String × List String)) :
    pageBreakTitles (buildFormItems catalog)
      = "Cloud Provider Selection" ::
          (catalog.map (fun e => techPageTitle e.1) ++ ["Feedback Complete"]) := by
  have h := pageBreakTitles_sectionItems (catalog.map Prod.fst) catalog 0
  unfold pageBreakTitles at h
  simp [buildFormItems, pageBreakTitles, List.filterMap_append, h]

/-! ### C1: forward-only navigation -/

/-- C1: in every built form (catalog provider names are unique, being JS
object keys), every choice on the `Next step` question of the provider
section at index `i` either is the `Go to Submit` choice targeting the
final page, or targets the page of a provider at catalog index strictly
greater than `i`; it never targets the page of a provider at index `≤ i`. -/
theorem c1_forward_only_navigation (catalog : List (String × List String))
    (hnd : (catalog.map Prod.fst).Nodup)
    (i : Nat) (L : List (String × PageRef))
    (hL : (nextStepChoiceLists (buildFormItems catalog))[i]? = some L)
    (ch : String × PageRef) (hch : ch ∈ L) :
    (ch = ("Go to Submit", PageRef.finalPage)
      ∨ ∃ j q, i < j ∧ (catalog.map Prod.fst)[j]? = some q
          ∧ ch = (q, PageRef.providerPage q))
    ∧ ∀ j q, j ≤ i → (catalog.map Prod.fst)[j]? = some q
        → ch.2 ≠ PageRef.providerPage q := by
  rw [nextStepChoiceLists_buildFormItems, List.getElem?_map] at hL
  have hi : i < catalog.length := by
    by_contra hge
    rw [List.getElem?_eq_none (by simpa using le_of_not_lt hge)] at hL
    exact Option.noConfusion hL
  rw [List.getElem?_range hi] at hL
  have hLeq : L = nextStepChoices (catalog.map Prod.fst) i :=
    (Option.some.inj hL).symm
  subst hLeq
  unfold nextStepChoices at hch
  rcases List.mem_append.mp hch with hmap | hsk
  · obtain ⟨q, hqmem, hq⟩ := List.mem_map.mp hmap
    obtain ⟨k, hk⟩ := List.mem_iff_getElem?.mp hqmem
    rw [List.getElem?_drop] at hk
    constructor
    · exact Or.inr ⟨i + 1 + k, q, by omega, hk, hq.symm⟩
    · intro j q' hji hq' hcontra
      rw [← hq] at hcontra
      dsimp only at hcontra
      have hqq : q = q' := PageRef.providerPage.inj hcontra
      subst hqq
      obtain ⟨hklt, hkeq⟩ := List.getElem?_eq_some_iff.mp hk
      obtain ⟨hjlt, hjeq⟩ := List.getElem?_eq_some_iff.mp hq'
      have : i + 1 + k = j := (hnd.getElem_inj_iff).mp (hkeq.trans hjeq.symm)
      omega
  · have hch_eq : ch = ("Go to Submit", PageRef.finalPage) := by simpa using hsk
    refine ⟨Or.inl hch_eq, ?_⟩
    intro j q' _ _ hcontra
    rw [hch_eq] at hcontra
    exact PageRef.noConfusion hcontra

/-- C1 witness: the two-provider catalog `AWS, Azure`; on the first
provider's page the choice `Azure` targets the provider at index `1 > 0`. -/
theorem c1_forward_only_navigation_witness :
    ([("AWS", ["EC2"]), ("Azure", ["VM"])].map Prod.fst).Nodup ∧
      (nextStepChoiceLists
          (buildFormItems [("AWS", ["EC2"]), ("Azure", ["VM"])]))[0]?
        = some [("Azure", PageRef.providerPage "Azure"),
                ("Go to Submit", PageRef.finalPage)] ∧
      ((("Azure", PageRef.providerPage "Azure") : String × PageRef)
          = ("Go to Submit", PageRef.finalPage)
        ∨ ∃ j q, 0 < j
            ∧ ([("AWS", ["EC2"]), ("Azure", ["VM"])].map Prod.fst)[j]? = some q
            ∧ (("Azure", PageRef.providerPage "Azure") : String × PageRef)
                = (q, PageRef.providerPage q)) :=
  ⟨by decide, by decide,
    (c1_forward_only_navigation [("AWS", ["EC2"]), ("Azure", ["VM"])]
      (by decide) 0
      [("Azure", PageRef.providerPage "Azure"),
       ("Go to Submit", PageRef.finalPage)] (by decide)
      ("Azure", PageRef.providerPage "Azure") (by decide)).1⟩

/-! ### C3: page inventory and provider-select choices -/

/-- C3 (amended): for every non-empty catalog the built form's page breaks
are exactly the `Cloud Provider Selection` page, one `Technologies` page
per provider in order, and the `Feedback Complete` final page — so the
form renders `n + 3` pages counting the initial intake page, one more than
the claim's "one page per provider plus an intake page and a final page";
and the single provider-select question carries exactly `n + 1` choices:
the `j`-th choice targets the `j`-th provider's page and the last is
`Go to Submit` targeting the final page. -/
theorem c3_build_page_and_choice_inventory (catalog : List (String × List String))
    (hne : catalog ≠ []) :
    pageBreakTitles (buildFormItems catalog)
        = "Cloud Provider Selection" ::
            (catalog.map (fun e => techPageTitle e.1) ++ ["Feedback Complete"])
      ∧ ∃ cs : List (String × PageRef),
          providerSelectChoiceLists (buildFormItems catalog) = [cs]
            ∧ cs.length = catalog.length + 1
            ∧ (∀ (j : Nat) (q : String), (catalog.map Prod.fst)[j]? = some q →
                cs[j]? = some (q, PageRef.providerPage q))
            ∧ cs[catalog.length]? = some ("Go to Submit", PageRef.finalPage) := by
  refine ⟨pageBreakTitles_buildFormItems catalog,
    startChoices (catalog.map Prod.fst),
    providerSelectChoiceLists_buildFormItems catalog, ?_, ?_, ?_⟩
  · simp [startChoices]
  · intro j q hj
    obtain ⟨hjlt, _⟩ := List.getElem?_eq_some_iff.mp hj
    unfold startChoices
    rw [List.getElem?_append_left (by simpa using hjlt), List.getElem?_map, hj]
    rfl
  · unfold startChoices
    rw [List.getElem?_append_right (by simp)]
    simp

/-- C3 witness: the page-break inventory of the one-provider build. -/
theorem c3_build_page_and_choice_inventory_witness :
    pageBreakTitles (buildFormItems [("AWS", ["EC2"])])
      = ["Cloud Provider Selection", "AWS Technologies", "Feedback Complete"] := by
  have h := (c3_build_page_and_choice_inventory [("AWS", ["EC2"])]
    (by decide)).1
  simpa using h

/-- C3 counterexample: for the one-provider catalog the built form renders
four pages (the initial intake page plus three page breaks: provider
selection, the provider page, and the final page), not the three pages
("one page per provider plus an intake page and a final page") the claim
asserts — the separate `Cloud Provider Selection` page is unaccounted for. -/
theorem c3_counterexample :
    formPageCount (buildFormItems [("AWS", ["EC2"])]) = 4
      ∧ ([("AWS", ["EC2"])] : List (String × List String)).length + 2 ≠ 4 := by
  decide

/-! ### C6: empty catalog and failed provider loads -/

/-- C6 (amended): `initializeFormV5` fails with the structured
`No valid cloud provider tabs found in spreadsheet` error exactly when no
tab qualifies as a provider; a provider whose technology load fails is
skipped without aborting the build; but whenever at least one tab
qualifies, the build succeeds unconditionally — the emptiness check runs
*before* the technology loads, so a run in which every load fails yields
a successful build carrying an empty catalog (a provider-less form) rather
than the `NoProvidersFound` failure the claim requires
(see `c6_counterexample`). -/
theorem c6_no_providers_and_skipped_loads (sheets : List Sheet)
    (loadFails : String → Bool) :
    (getAllCloudProvidersFromTabs sheets = [] ↔
      initializeFormV5 sheets loadFails
        = InitResult.failure "No valid cloud provider tabs found in spreadsheet")
    ∧ (∀ p : String, loadFails p = true →
        p ∉ (loadAllCloudTechnologies sheets loadFails
              (getAllCloudProvidersFromTabs sheets)).map Prod.fst)
    ∧ (getAllCloudProvidersFromTabs sheets ≠ [] →
        initializeFormV5 sheets loadFails
          = InitResult.success (getAllCloudProvidersFromTabs sheets)
              (loadAllCloudTechnologies sheets loadFails
                (getAllCloudProvidersFromTabs sheets))
              (buildFormItems (loadAllCloudTechnologies sheets loadFails
                (getAllCloudProvidersFromTabs sheets)))) := by
  refine ⟨⟨?_, ?_⟩, ?_, ?_⟩
  · intro h
    unfold initializeFormV5
    rw [h]
    rfl
  · intro h
    unfold initializeFormV5 at h
    by_cases hz : (getAllCloudProvidersFromTabs sheets).length = 0
    · exact List.length_eq_zero.mp hz
    · rw [if_neg hz] at h
      exact InitResult.noConfusion h
  · intro p hp hmem
    unfold loadAllCloudTechnologies at hmem
    rw [List.mem_map] at hmem
    obtain ⟨pair, hpair, hfst⟩ := hmem
    rw [List.mem_filterMap] at hpair
    obtain ⟨prov, _, hopt⟩ := hpair
    dsimp only at hopt
    by_cases hlen : 0 < (loadTechnologiesFromSheet sheets loadFails prov).length
    · rw [if_pos hlen] at hopt
      have hpv : prov = p := by
        rw [← hfst, ← Option.some.inj hopt]
      subst hpv
      unfold loadTechnologiesFromSheet at hlen
      rw [if_pos hp] at hlen
      simp at hlen
    · rw [if_neg hlen] at hopt
      exact Option.noConfusion hopt
  · intro h
    unfold initializeFormV5
    rw [if_neg (by simpa using h)]

/-- C6 witness: a spreadsheet with qualifying tabs `AWS` and `Azure` where
only the `AWS` load fails: `AWS` is skipped from the catalog and the build
still succeeds on the surviving provider. -/
theorem c6_no_providers_and_skipped_loads_witness :
    (fun n : String => n == "AWS") "AWS" = true ∧
      "AWS" ∉ (loadAllCloudTechnologies
          [⟨"AWS", [["EC2"]]⟩, ⟨"Azure", [["VM"]]⟩] (fun n => n == "AWS")
          (getAllCloudProvidersFromTabs
            [⟨"AWS", [["EC2"]]⟩, ⟨"Azure", [["VM"]]⟩])).map Prod.fst ∧
      getAllCloudProvidersFromTabs
          [⟨"AWS", [["EC2"]]⟩, ⟨"Azure", [["VM"]]⟩] ≠ [] ∧
      initializeFormV5 [⟨"AWS", [["EC2"]]⟩, ⟨"Azure", [["VM"]]⟩]
          (fun n => n == "AWS")
        = InitResult.success
            (getAllCloudProvidersFromTabs
              [⟨"AWS", [["EC2"]]⟩, ⟨"Azure", [["VM"]]⟩])
            (loadAllCloudTechnologies
              [⟨"AWS", [["EC2"]]⟩, ⟨"Azure", [["VM"]]⟩] (fun n => n == "AWS")
              (getAllCloudProvidersFromTabs
                [⟨"AWS", [["EC2"]]⟩, ⟨"Azure", [["VM"]]⟩]))
            (buildFormItems (loadAllCloudTechnologies
              [⟨"AWS", [["EC2"]]⟩, ⟨"Azure", [["VM"]]⟩] (fun n => n == "AWS")
              (getAllCloudProvidersFromTabs
                [⟨"AWS", [["EC2"]]⟩, ⟨"Azure", [["VM"]]⟩]))) :=
  ⟨by decide,
    (c6_no_providers_and_skipped_loads _ _).2.1 "AWS" (by decide),
    by decide,
    (c6_no_providers_and_skipped_loads _ _).2.2 (by decide)⟩

/-- C6 counterexample: one qualifying tab `AWS` whose technology load
throws (failure oracle returns true on it).  Every load fails, zero
providers survive, and `initializeFormV5` still returns a success carrying
an empty catalog and a provider-less form — not the `NoProvidersFound`
failure the claim asserts for zero survivors. -/
theorem c6_counterexample :
    getAllCloudProvidersFromTabs [⟨"AWS", [["EC2"]]⟩] = ["AWS"]
      ∧ loadAllCloudTechnologies [⟨"AWS", [["EC2"]]⟩] (fun n => n == "AWS")
          (getAllCloudProvidersFromTabs [⟨"AWS", [["EC2"]]⟩]) = []
      ∧ initializeFormV5 [⟨"AWS", [["EC2"]]⟩] (fun n => n == "AWS")
          = InitResult.success ["AWS"] [] (buildFormItems []) := by decide

end GoogleScripts
